import Mathlib

/-!
Shallow embedding of the webhook delivery engine (`src/webhook-manager.js`)
and the adaptive anti-ban admission gate (`src/unnamed/part_006`,
`AdvancedAntiBanManager`) of the whatsapp-service repository, together with
theorems settling the specification claims about them.

Bytes are modelled as natural numbers (values kept below 256 by
construction); machine words of SHA-256 as naturals reduced modulo 2^32;
JavaScript numeric fields that can become fractional (rate-limit ceilings,
delays, probabilities) as rationals, which represent every value arising
here exactly.
-/

namespace WhatsappService

/-! ## SHA-256 (the `crypto` primitive used by `_generateSignature`) -/

def w32 (x : ℕ) : ℕ := x % 2 ^ 32

def rotr32 (n x : ℕ) : ℕ := w32 ((x >>> n) ||| (x <<< (32 - n)))

def not32 (x : ℕ) : ℕ := x ^^^ 0xffffffff

def bigSigma0 (x : ℕ) : ℕ := rotr32 2 x ^^^ rotr32 13 x ^^^ rotr32 22 x

def bigSigma1 (x : ℕ) : ℕ := rotr32 6 x ^^^ rotr32 11 x ^^^ rotr32 25 x

def smallSigma0 (x : ℕ) : ℕ := rotr32 7 x ^^^ rotr32 18 x ^^^ (x >>> 3)

def smallSigma1 (x : ℕ) : ℕ := rotr32 17 x ^^^ rotr32 19 x ^^^ (x >>> 10)

def chFn (x y z : ℕ) : ℕ := (x &&& y) ^^^ (not32 x &&& z)

def majFn (x y z : ℕ) : ℕ := (x &&& y) ^^^ (x &&& z) ^^^ (y &&& z)

def sha256K : List ℕ :=
  [1116352408, 1899447441, 3049323471, 3921009573, 961987163,
   1508970993, 2453635748, 2870763221, 3624381080, 310598401,
   607225278, 1426881987, 1925078388, 2162078206, 2614888103,
   3248222580, 3835390401, 4022224774, 264347078, 604807628,
   770255983, 1249150122, 1555081692, 1996064986, 2554220882,
   2821834349, 2952996808, 3210313671, 3336571891, 3584528711,
   113926993, 338241895, 666307205, 773529912, 1294757372,
   1396182291, 1695183700, 1986661051, 2177026350, 2456956037,
   2730485921, 2820302411, 3259730800, 3345764771, 3516065817,
   3600352804, 4094571909, 275423344, 430227734, 506948616,
   659060556, 883997877, 958139571, 1322822218, 1537002063,
   1747873779, 1955562222, 2024104815, 2227730452, 2361852424,
   2428436474, 2756734187, 3204031479, 3329325298]

structure Hash8 where
  a : ℕ
  b : ℕ
  c : ℕ
  d : ℕ
  e : ℕ
  f : ℕ
  g : ℕ
  h : ℕ

def sha256Init : Hash8 :=
  ⟨1779033703, 3144134277, 1013904242, 2773480762,
   1359893119, 2600822924, 528734635, 1541459225⟩

/-- Big-endian byte expansion of `n` into `k` bytes. -/
def natToBytesBE (k n : ℕ) : List ℕ :=
  (List.range k).map fun i => (n >>> (8 * (k - 1 - i))) % 256

/-- SHA-256 message padding: append `0x80`, zero bytes up to 56 mod 64,
then the 64-bit big-endian bit length. -/
def padMessage (msg : List ℕ) : List ℕ :=
  let padZeros := (119 - msg.length % 64) % 64
  msg ++ [0x80] ++ List.replicate padZeros 0 ++ natToBytesBE 8 (8 * msg.length)

/-- The 16 big-endian 32-bit words of one 64-byte chunk. -/
def chunkWords (chunk : List ℕ) : List ℕ :=
  (List.range 16).map fun i =>
    (chunk.getD (4 * i) 0 <<< 24) ||| (chunk.getD (4 * i + 1) 0 <<< 16) |||
    (chunk.getD (4 * i + 2) 0 <<< 8) ||| chunk.getD (4 * i + 3) 0

/-- Extend the 16-word schedule by `k` further words. -/
def extendWords : ℕ → List ℕ → List ℕ
  | 0, ws => ws
  | k + 1, ws =>
      let n := ws.length
      extendWords k (ws ++ [w32 (smallSigma1 (ws.getD (n - 2) 0) + ws.getD (n - 7) 0 +
        smallSigma0 (ws.getD (n - 15) 0) + ws.getD (n - 16) 0)])

def compressStep (st : Hash8) (kw : ℕ × ℕ) : Hash8 :=
  let t1 := w32 (st.h + bigSigma1 st.e + chFn st.e st.f st.g + kw.1 + kw.2)
  let t2 := w32 (bigSigma0 st.a + majFn st.a st.b st.c)
  ⟨w32 (t1 + t2), st.a, st.b, st.c, w32 (st.d + t1), st.e, st.f, st.g⟩

def processChunk (st : Hash8) (chunk : List ℕ) : Hash8 :=
  let ws := extendWords 48 (chunkWords chunk)
  let r := (sha256K.zip ws).foldl compressStep st
  ⟨w32 (st.a + r.a), w32 (st.b + r.b), w32 (st.c + r.c), w32 (st.d + r.d),
   w32 (st.e + r.e), w32 (st.f + r.f), w32 (st.g + r.g), w32 (st.h + r.h)⟩

/-- Split a byte list into 64-byte chunks (fuelled so the kernel can
reduce it; the fuel `msg.length` always suffices). -/
def splitChunksAux : ℕ → List ℕ → List (List ℕ)
  | 0, _ => []
  | fuel + 1, l => if l.isEmpty then [] else l.take 64 :: splitChunksAux fuel (l.drop 64)

def splitChunks (l : List ℕ) : List (List ℕ) := splitChunksAux l.length l

def hash8Bytes (st : Hash8) : List ℕ :=
  natToBytesBE 4 st.a ++ natToBytesBE 4 st.b ++ natToBytesBE 4 st.c ++
  natToBytesBE 4 st.d ++ natToBytesBE 4 st.e ++ natToBytesBE 4 st.f ++
  natToBytesBE 4 st.g ++ natToBytesBE 4 st.h

def sha256 (msg : List ℕ) : List ℕ :=
  hash8Bytes ((splitChunks (padMessage msg)).foldl processChunk sha256Init)

/-! ## HMAC-SHA256 and hex encoding (`crypto.createHmac(...).digest('hex')`) -/

def hmacSha256 (key msg : List ℕ) : List ℕ :=
  let k0 := if 64 < key.length then sha256 key else key
  let k1 := k0 ++ List.replicate (64 - k0.length) 0
  sha256 ((k1.map fun b => b ^^^ 0x5c) ++ sha256 ((k1.map fun b => b ^^^ 0x36) ++ msg))

/-- ASCII code of the lowercase hex digit for `n < 16`. -/
def hexDigitChar (n : ℕ) : ℕ := if n < 10 then 48 + n else 87 + n

/-- Lowercase hex encoding, as the list of ASCII codes. -/
def hexEncode : List ℕ → List ℕ
  | [] => []
  | b :: bs => hexDigitChar (b / 16 % 16) :: hexDigitChar (b % 16) :: hexEncode bs

/-! ## JSON payloads and `JSON.stringify`

Webhook payloads are opaque JSON-serializable values; `_generateSignature`
serializes them with `JSON.stringify` before signing.  Strings are carried
as byte lists (UTF-8), numbers as integers (the fractional formatting of
JS numbers plays no role in any claim). -/

inductive Json where
  | null : Json
  | bool (b : Bool) : Json
  | num (n : ℤ) : Json
  | str (s : List ℕ) : Json
  | arr (xs : List Json) : Json
  | obj (kvs : List (List ℕ × Json)) : Json

def asciiOf (s : String) : List ℕ := s.toUTF8.toList.map fun b => b.toNat

/-- JSON string escaping of one byte, as in `JSON.stringify`. -/
def escapeByte (b : ℕ) : List ℕ :=
  if b = 34 then [92, 34]
  else if b = 92 then [92, 92]
  else if b = 8 then [92, 98]
  else if b = 9 then [92, 116]
  else if b = 10 then [92, 110]
  else if b = 12 then [92, 102]
  else if b = 13 then [92, 114]
  else if b < 32 then [92, 117, 48, 48, hexDigitChar (b / 16 % 16), hexDigitChar (b % 16)]
  else [b]

def escapeBytes : List ℕ → List ℕ
  | [] => []
  | b :: bs => escapeByte b ++ escapeBytes bs

def quoteBytes (s : List ℕ) : List ℕ := [34] ++ escapeBytes s ++ [34]

def intAscii (n : ℤ) : List ℕ :=
  (if n < 0 then [45] else []) ++ ((Nat.toDigits 10 n.natAbs).map fun c => c.toNat)

mutual

def jsonStringify : Json → List ℕ
  | .null => asciiOf "null"
  | .bool true => asciiOf "true"
  | .bool false => asciiOf "false"
  | .num n => intAscii n
  | .str s => quoteBytes s
  | .arr xs => [91] ++ jsonStringifyList xs ++ [93]
  | .obj kvs => [123] ++ jsonStringifyObj kvs ++ [125]

def jsonStringifyList : List Json → List ℕ
  | [] => []
  | [x] => jsonStringify x
  | x :: y :: xs => jsonStringify x ++ [44] ++ jsonStringifyList (y :: xs)

def jsonStringifyObj : List (List ℕ × Json) → List ℕ
  | [] => []
  | [kv] => quoteBytes kv.1 ++ [58] ++ jsonStringify kv.2
  | kv :: kv2 :: kvs => quoteBytes kv.1 ++ [58] ++ jsonStringify kv.2 ++ [44] ++
      jsonStringifyObj (kv2 :: kvs)

end

/-! ## Webhook signing and verification (`webhook-manager.js` 301–316)

`_generateSignature` is `hex(HMAC-SHA256(secretKey, JSON.stringify(payload)))`.
`verifyWebhookSignature` compares with `crypto.timingSafeEqual`, which
throws a `RangeError` when the two buffers differ in byte length; that
fallible behaviour is modelled with `Except`. -/

def generateSignature (payload : Json) (secretKey : List ℕ) : List ℕ :=
  hexEncode (hmacSha256 secretKey (jsonStringify payload))

def timingSafeEqual (x y : List ℕ) : Except String Bool :=
  if x.length = y.length then .ok (x == y)
  else .error "Input buffers must have the same byte length"

def verifyWebhookSignature (payload : Json) (signature : List ℕ)
    (secretKey : List ℕ) : Except String Bool :=
  timingSafeEqual signature (generateSignature payload secretKey)

/-! ## Webhook registration event validation (`webhook-manager.js` 24–78) -/

def validEvents : List String :=
  ["message_sent", "message_received", "message_failed", "message_delivered",
   "message_read", "client_connected", "client_disconnected",
   "campaign_started", "campaign_completed", "automation_triggered",
   "contact_added", "contact_updated", "contact_removed"]

/-- The event-validation step of `registerWebhook`: names outside
`validEvents` make registration throw `Invalid events: ...`. -/
def validateEvents (events : List String) : Except String Unit :=
  let invalidEvents := events.filter fun e => !(validEvents.contains e)
  if invalidEvents.isEmpty then .ok ()
  else .error ("Invalid events: " ++ String.intercalate ", " invalidEvents)

/-! ## Delivery pipeline (`webhook-manager.js` 196–296)

One queued delivery progresses through `_processQueue` / `_deliverWebhook`:

* an attempt that receives an HTTP response always writes a log row
  (`_logWebhookDelivery` with the response status and the current
  `retries` counter), then throws unless the status is 200 or 204;
* an attempt that fails at network level (axios throws) writes nothing;
* on a throw, if `retries < maxRetries` the counter is incremented and the
  delivery is re-queued after `2^retries * 1000` ms (the counter having
  just been incremented, the delay is `2^(oldRetries+1) * 1000` ms);
  otherwise a final failure row is written with status code 500 and the
  final `retries` counter.

The recursion is driven structurally by `remaining = maxRetries - retries`,
which makes `retries < maxRetries` the same test as `remaining > 0`. -/

inductive HttpOutcome where
  | response (status : ℕ) : HttpOutcome
  | networkError : HttpOutcome

def isSuccessStatus (s : ℕ) : Bool := s == 200 || s == 204

def HttpOutcome.isSuccess : HttpOutcome → Bool
  | .response s => isSuccessStatus s
  | .networkError => false

def HttpOutcome.isFailResponse : HttpOutcome → Bool
  | .response s => !isSuccessStatus s
  | .networkError => false

structure LogEntry where
  statusCode : ℕ
  retryCount : ℕ
deriving DecidableEq

structure DeliveryTrace where
  logs : List LogEntry
  delaysMs : List ℕ
  attempts : ℕ
deriving DecidableEq

/-- Run one delivery from retry counter `retries` with
`remaining = maxRetries - retries` retries still permitted, the HTTP
outcome of attempt `i` being `outcomes i`. -/
def processFrom (outcomes : ℕ → HttpOutcome) : ℕ → ℕ → DeliveryTrace
  | retries, 0 =>
    match outcomes retries with
    | .response s =>
        if isSuccessStatus s then ⟨[⟨s, retries⟩], [], 1⟩
        else ⟨[⟨s, retries⟩, ⟨500, retries⟩], [], 1⟩
    | .networkError => ⟨[⟨500, retries⟩], [], 1⟩
  | retries, r + 1 =>
    match outcomes retries with
    | .response s =>
        if isSuccessStatus s then ⟨[⟨s, retries⟩], [], 1⟩
        else
          let rest := processFrom outcomes (retries + 1) r
          ⟨⟨s, retries⟩ :: rest.logs, 2 ^ (retries + 1) * 1000 :: rest.delaysMs,
            rest.attempts + 1⟩
    | .networkError =>
        let rest := processFrom outcomes (retries + 1) r
        ⟨rest.logs, 2 ^ (retries + 1) * 1000 :: rest.delaysMs, rest.attempts + 1⟩

/-- A whole delivery: starts at `retries = 0`, with `maxRetries` retries
permitted (constructor default 3). -/
def processDelivery (outcomes : ℕ → HttpOutcome) (maxRetries : ℕ) : DeliveryTrace :=
  processFrom outcomes 0 maxRetries

/-! ## Adaptive rate limiting (`AdvancedAntiBanManager`, part_006 239–327)

Counts (`current`) only ever take natural values; the ceilings (`max`)
are JavaScript numbers that `triggerProtectiveMeasures` divides by 2, so
they are modelled as rationals (every value arising is an exactly
representable binary fraction, so ℚ mirrors the JS float arithmetic
exactly on this code). Timestamps are integers in milliseconds. -/

structure RateWindow where
  max : ℚ
  current : ℕ
  window : ℤ
deriving DecidableEq

structure Limiter where
  perMinute : RateWindow
  perHour : RateWindow
  perDay : RateWindow
  suspiciousActivityCount : ℕ
  adaptiveThreshold : ℚ
deriving DecidableEq

/-- `initializeRateLimiter` (part_006 239–253). -/
def initializeRateLimiter (now : ℤ) : Limiter :=
  ⟨⟨20, 0, now⟩, ⟨100, 0, now⟩, ⟨1000, 0, now⟩, 0, 8 / 10⟩

structure AdmissionResult where
  allowed : Bool
  reason : Option String
  retryAfter : Option ℕ
  warnings : List String
deriving DecidableEq

def resetWindow (w : RateWindow) (durationMs : ℤ) (now : ℤ) : RateWindow :=
  if durationMs < now - w.window then ⟨w.max, 0, now⟩ else w

/-- `canSendMessage` (part_006 258–315): refresh the three windows, then
check ceilings minute → hour → day, then collect adaptive-threshold
warnings.  Returns the refreshed limiter (the resets are in-place
mutations in the source) together with the result. -/
def canSendMessage (l : Limiter) (now : ℤ) : Limiter × AdmissionResult :=
  let l' : Limiter := { l with
    perMinute := resetWindow l.perMinute 60000 now
    perHour := resetWindow l.perHour 3600000 now
    perDay := resetWindow l.perDay 86400000 now }
  if l'.perMinute.max ≤ (l'.perMinute.current : ℚ) then
    (l', ⟨false, some "Per-minute limit exceeded", some 60, []⟩)
  else if l'.perHour.max ≤ (l'.perHour.current : ℚ) then
    (l', ⟨false, some "Per-hour limit exceeded", some 3600, []⟩)
  else if l'.perDay.max ≤ (l'.perDay.current : ℚ) then
    (l', ⟨false, some "Per-day limit exceeded", some 86400, []⟩)
  else
    let warnings :=
      (if l'.perMinute.max * l'.adaptiveThreshold ≤ (l'.perMinute.current : ℚ) then
        ["Approaching per-minute limit"] else []) ++
      (if l'.perHour.max * l'.adaptiveThreshold ≤ (l'.perHour.current : ℚ) then
        ["Approaching per-hour limit"] else []) ++
      (if l'.perDay.max * l'.adaptiveThreshold ≤ (l'.perDay.current : ℚ) then
        ["Approaching per-day limit"] else [])
    (l', ⟨true, none, none, warnings⟩)

/-- `recordMessageSend` (part_006 320–327): increment all three counters. -/
def recordMessageSend (l : Limiter) : Limiter :=
  { l with
    perMinute := { l.perMinute with current := l.perMinute.current + 1 }
    perHour := { l.perHour with current := l.perHour.current + 1 }
    perDay := { l.perDay with current := l.perDay.current + 1 } }

/-! ## Suspicious-activity detection (part_006 380–434) -/

structure Activity where
  messagesSentInSequence : ℕ
  failureRate : ℚ
  ipChangesInHour : ℕ
  geoLocationJump : ℕ
  unusualMessageContent : Bool
deriving DecidableEq

/-- The five patterns of `detectSuspiciousActivity` (part_006 385–391). -/
def isSuspiciousActivity (a : Activity) : Bool :=
  decide (10 < a.messagesSentInSequence) || decide (3 / 10 < a.failureRate) ||
  decide (3 < a.ipChangesInHour) || decide (1000 < a.geoLocationJump) ||
  a.unusualMessageContent

/-- `triggerProtectiveMeasures` (part_006 419–434): halve the per-minute
ceiling with a floor of 5 (`Math.max(5, max / 2)`). -/
def triggerProtectiveMeasures (l : Limiter) : Limiter :=
  { l with perMinute := { l.perMinute with max := max 5 (l.perMinute.max / 2) } }

/-- `detectSuspiciousActivity` (part_006 380–414): on a suspicious
activity, increment the counter, and once it exceeds 3 apply the
protective measures.  Returns the updated limiter and `isSuspicious`. -/
def detectSuspiciousActivity (l : Limiter) (a : Activity) : Limiter × Bool :=
  if isSuspiciousActivity a then
    let l' := { l with suspiciousActivityCount := l.suspiciousActivityCount + 1 }
    if 3 < l'.suspiciousActivityCount then (triggerProtectiveMeasures l', true)
    else (l', true)
  else (l, false)

/-! ## Behavioural simulation (part_006 201–230, 440–442)

`simulateHumanBehavior` draws a delay and sleeps for it internally
(`await setTimeout`), then returns `true`; the slept duration is recorded
in the model so theorems can speak about it, but it is not part of the
value the caller receives — that value is the `returned` flag alone.
`p` models the `Math.random()` draw compared against 0.1, `r` the draw
inside `_randomDelay`. -/

def randomDelay (lo hi r : ℚ) : ℚ := r * (hi - lo) + lo

structure SimResult where
  sleptMs : ℚ
  returned : Bool
deriving DecidableEq

def simulateHumanBehavior (action : String) (p r : ℚ) : SimResult :=
  if action = "type" then ⟨randomDelay 60 100 r, true⟩
  else if action = "mouse" then ⟨randomDelay 100 300 r, true⟩
  else if action = "scroll" then ⟨randomDelay 200 500 r, true⟩
  else if action = "message" then
    ⟨if p < 1 / 10 then randomDelay 5000 15000 r else randomDelay 2000 5000 r, true⟩
  else ⟨0, true⟩

/-! ## Concrete sample states used by witnesses and counterexamples -/

/-- A limiter whose per-minute window is at its ceiling (20 of 20),
30000 ms into the window. -/
def atCeilingLimiter : Limiter :=
  ⟨⟨20, 20, 0⟩, ⟨100, 0, 0⟩, ⟨1000, 0, 0⟩, 0, 8 / 10⟩

/-- A limiter with a per-minute ceiling of 2 and suspicion count
already 3. -/
def lowCeilingLimiter : Limiter :=
  ⟨⟨2, 0, 0⟩, ⟨100, 0, 0⟩, ⟨1000, 0, 0⟩, 3, 8 / 10⟩

/-- A limiter with the default ceilings and suspicion count already 3. -/
def suspectLimiter : Limiter :=
  ⟨⟨20, 0, 0⟩, ⟨100, 0, 0⟩, ⟨1000, 0, 0⟩, 3, 8 / 10⟩

/-- An activity with a 50% failure rate (above the 0.3 pattern bound). -/
def failingActivity : Activity := ⟨0, 1 / 2, 0, 0, false⟩

/-- A subscriber endpoint that answers HTTP 503 to every attempt. -/
def always503 : ℕ → HttpOutcome := fun _ => HttpOutcome.response 503

/-- A subscriber endpoint that answers HTTP 200 to every attempt. -/
def always200 : ℕ → HttpOutcome := fun _ => HttpOutcome.response 200

/-! ## Helper lemmas -/

theorem hexEncode_length (l : List ℕ) : (hexEncode l).length = 2 * l.length := by
  induction l with
  | nil => rfl
  | cons b bs ih => simp [hexEncode, ih]; ring

theorem natToBytesBE_length (k n : ℕ) : (natToBytesBE k n).length = k := by
  simp [natToBytesBE]

theorem sha256_length (msg : List ℕ) : (sha256 msg).length = 32 := by
  simp [sha256, hash8Bytes, natToBytesBE_length]

theorem hmacSha256_length (key msg : List ℕ) : (hmacSha256 key msg).length = 32 := by
  simp [hmacSha256, sha256_length]

theorem generateSignature_length (p : Json) (key : List ℕ) :
    (generateSignature p key).length = 64 := by
  simp [generateSignature, hexEncode_length, hmacSha256_length]

theorem hexDigitChar_le (n : ℕ) (hn : n ≤ 15) : hexDigitChar n ≤ 102 := by
  unfold hexDigitChar
  split <;> omega

theorem hexEncode_getD_le (bs : List ℕ) (i : ℕ) : (hexEncode bs).getD i 0 ≤ 102 := by
  induction bs generalizing i with
  | nil => simp [hexEncode]
  | cons b bs ih =>
    have h1 : b / 16 % 16 ≤ 15 := Nat.le_of_lt_succ (Nat.mod_lt _ (by norm_num))
    have h2 : b % 16 ≤ 15 := Nat.le_of_lt_succ (Nat.mod_lt _ (by norm_num))
    match i with
    | 0 => simpa [hexEncode] using hexDigitChar_le _ h1
    | 1 => simpa [hexEncode] using hexDigitChar_le _ h2
    | n + 2 => simpa [hexEncode] using ih n

theorem simulateHumanBehavior_message (p r : ℚ) :
    simulateHumanBehavior "message" p r =
      ⟨if p < 1 / 10 then randomDelay 5000 15000 r else randomDelay 2000 5000 r, true⟩ := by
  rfl

/-- C10: for every payload and secret, signature verification raises
(models `crypto.timingSafeEqual` throwing a `RangeError`) whenever the
candidate signature's byte length differs from the 64-character hex HMAC
digest it is compared with, and returns a boolean exactly when the
lengths agree. -/
theorem verify_length_mismatch_raises (p : Json) (key sig : List ℕ) :
    (sig.length ≠ 64 →
      verifyWebhookSignature p sig key =
        Except.error "Input buffers must have the same byte length") ∧
    (sig.length = 64 → ∃ b, verifyWebhookSignature p sig key = Except.ok b) := by
  have hlen := generateSignature_length p key
  constructor
  · intro hne
    simp [verifyWebhookSignature, timingSafeEqual, hlen, hne]
  · intro heq
    exact ⟨sig == generateSignature p key,
      by simp [verifyWebhookSignature, timingSafeEqual, hlen, heq]⟩

theorem verify_length_mismatch_raises_witness :
    (List.replicate 63 48).length ≠ 64 ∧
    verifyWebhookSignature Json.null (List.replicate 63 48) [1, 2] =
      Except.error "Input buffers must have the same byte length" :=
  ⟨by decide,
   (verify_length_mismatch_raises Json.null [1, 2] (List.replicate 63 48)).1 (by decide)⟩

/-- C8: the signature round-trip — verifying the signature produced by
signing a payload (hex HMAC-SHA256 keyed by the secret over the JSON
serialization of the payload) with the same secret yields `true`, and
verification yields `false` for any signature obtained by overwriting
one byte of the genuine one with a different value (flipping a byte is
the special case `c = genuine byte XOR mask`). -/
theorem signature_roundtrip (p : Json) (key : List ℕ) (i c : ℕ)
    (hi : i < 64) (hc : c ≠ (generateSignature p key).getD i 0) :
    verifyWebhookSignature p (generateSignature p key) key = Except.ok true ∧
    verifyWebhookSignature p ((generateSignature p key).set i c) key = Except.ok false := by
  have hlen := generateSignature_length p key
  have hilen : i < (generateSignature p key).length := by rw [hlen]; exact hi
  constructor
  · simp [verifyWebhookSignature, timingSafeEqual]
  · have hgd : ((generateSignature p key).set i c).getD i 0 = c := by
      rw [List.getD_eq_getElem?_getD, List.getElem?_set_self hilen]
      rfl
    have hne : (generateSignature p key).set i c ≠ generateSignature p key := by
      intro heq
      exact hc (by rw [← hgd, heq])
    simp [verifyWebhookSignature, timingSafeEqual, List.length_set,
      beq_eq_false_iff_ne.mpr hne]

theorem signature_roundtrip_witness :
    (0 : ℕ) < 64 ∧
    (200 : ℕ) ≠ (generateSignature Json.null [107, 101, 121]).getD 0 0 ∧
    (verifyWebhookSignature Json.null (generateSignature Json.null [107, 101, 121])
        [107, 101, 121] = Except.ok true ∧
      verifyWebhookSignature Json.null
        ((generateSignature Json.null [107, 101, 121]).set 0 200)
        [107, 101, 121] = Except.ok false) :=
  have hbound : (200 : ℕ) ≠ (generateSignature Json.null [107, 101, 121]).getD 0 0 := by
    have h := hexEncode_getD_le (hmacSha256 [107, 101, 121] (jsonStringify Json.null)) 0
    show (200 : ℕ) ≠ (hexEncode (hmacSha256 [107, 101, 121] (jsonStringify Json.null))).getD 0 0
    omega
  ⟨by norm_num, hbound,
   signature_roundtrip Json.null [107, 101, 121] 0 200 (by norm_num) hbound⟩

/-- C4 counterexample: the claim says registration accepts the dotted
name `message.sent`; the source's `validEvents` list uses underscores,
so the event validation of `registerWebhook` rejects it with an
`Invalid events` error. -/
theorem register_event_dotted_cex :
    validateEvents ["message.sent"] = Except.error "Invalid events: message.sent" := by
  rfl

/-- C4 (amended): the accepted event-type names are exactly the
underscore-separated constants of `validEvents` (`message_sent`, ...,
`contact_removed`); a singleton registration passes event validation iff
its name is in that list, and otherwise throws a validation error. -/
theorem register_event_names (e : String) :
    (e ∈ validEvents → validateEvents [e] = Except.ok ()) ∧
    (e ∉ validEvents → ∃ msg, validateEvents [e] = Except.error msg) := by
  constructor
  · intro hmem
    simp [validateEvents, List.filter, List.contains, List.elem_eq_mem, hmem]
  · intro hmem
    have h : validateEvents [e] =
        Except.error ("Invalid events: " ++ String.intercalate ", " [e]) := by
      simp [validateEvents, List.filter, List.contains, List.elem_eq_mem, hmem]
    exact ⟨_, h⟩

theorem register_event_names_witness :
    "message_sent" ∈ validEvents ∧ validateEvents ["message_sent"] = Except.ok () :=
  ⟨by simp [validEvents], (register_event_names "message_sent").1 (by simp [validEvents])⟩

/-- C6 counterexample: a limiter whose per-minute window is at its
ceiling, 30000 ms into the 60000 ms window, is blocked with
`retryAfter = 60` — the fixed full window duration — whereas the claim's
remaining-duration computation yields `(60000 - 30000) / 1000 = 30`. -/
theorem retry_after_fixed_cex :
    (canSendMessage atCeilingLimiter 30000).2.retryAfter = some 60 ∧
    (60 : ℕ) ≠ (60000 - 30000) / 1000 := by
  constructor
  · norm_num [canSendMessage, atCeilingLimiter, resetWindow]
  · norm_num

/-- C6 (amended): a blocked admission check names the exhausted window in
its reason and returns a `retryAfter` hint equal to that window's full
duration constant (60 / 3600 / 86400 seconds), independent of how much of
the window has already elapsed; the named window's refreshed count is at
or above its ceiling. -/
theorem blocked_retry_after_fixed (l : Limiter) (now : ℤ)
    (hb : (canSendMessage l now).2.allowed = false) :
    ((canSendMessage l now).2.reason = some "Per-minute limit exceeded" ∧
      (canSendMessage l now).2.retryAfter = some 60 ∧
      (canSendMessage l now).1.perMinute.max ≤ ((canSendMessage l now).1.perMinute.current : ℚ)) ∨
    ((canSendMessage l now).2.reason = some "Per-hour limit exceeded" ∧
      (canSendMessage l now).2.retryAfter = some 3600 ∧
      (canSendMessage l now).1.perHour.max ≤ ((canSendMessage l now).1.perHour.current : ℚ)) ∨
    ((canSendMessage l now).2.reason = some "Per-day limit exceeded" ∧
      (canSendMessage l now).2.retryAfter = some 86400 ∧
      (canSendMessage l now).1.perDay.max ≤ ((canSendMessage l now).1.perDay.current : ℚ)) := by
  simp only [canSendMessage] at hb ⊢
  split_ifs at hb ⊢ with h1 h2 h3
  · exact Or.inl ⟨rfl, rfl, h1⟩
  · exact Or.inr (Or.inl ⟨rfl, rfl, h2⟩)
  · exact Or.inr (Or.inr ⟨rfl, rfl, h3⟩)

theorem blocked_retry_after_fixed_witness :
    (canSendMessage atCeilingLimiter 30000).2.allowed = false ∧
    (((canSendMessage atCeilingLimiter 30000).2.reason = some "Per-minute limit exceeded" ∧
        (canSendMessage atCeilingLimiter 30000).2.retryAfter = some 60 ∧
        (canSendMessage atCeilingLimiter 30000).1.perMinute.max ≤
          ((canSendMessage atCeilingLimiter 30000).1.perMinute.current : ℚ)) ∨
      ((canSendMessage atCeilingLimiter 30000).2.reason = some "Per-hour limit exceeded" ∧
        (canSendMessage atCeilingLimiter 30000).2.retryAfter = some 3600 ∧
        (canSendMessage atCeilingLimiter 30000).1.perHour.max ≤
          ((canSendMessage atCeilingLimiter 30000).1.perHour.current : ℚ)) ∨
      ((canSendMessage atCeilingLimiter 30000).2.reason = some "Per-day limit exceeded" ∧
        (canSendMessage atCeilingLimiter 30000).2.retryAfter = some 86400 ∧
        (canSendMessage atCeilingLimiter 30000).1.perDay.max ≤
          ((canSendMessage atCeilingLimiter 30000).1.perDay.current : ℚ))) :=
  ⟨by norm_num [canSendMessage, atCeilingLimiter, resetWindow],
   blocked_retry_after_fixed atCeilingLimiter 30000
     (by norm_num [canSendMessage, atCeilingLimiter, resetWindow])⟩

/-- C9 counterexample: a client with per-minute ceiling 2 and suspicion
count already 3 records one more suspicious activity; the code sets the
ceiling to `Math.max(5, 2 / 2) = 5`, whereas the claim's
halve-with-floor-1 rule yields `max 1 (2 / 2) = 1`. -/
theorem suspicion_floor_cex :
    (detectSuspiciousActivity lowCeilingLimiter failingActivity).1.perMinute.max = 5 ∧
    ¬ ((5 : ℚ) = max 1 ((2 : ℚ) / 2)) := by
  constructor
  · norm_num [detectSuspiciousActivity, isSuspiciousActivity, triggerProtectiveMeasures,
      lowCeilingLimiter, failingActivity]
  · norm_num

/-- C9 (amended): once the suspicion counter crosses the fixed threshold
of 3 (i.e. the incremented counter exceeds 3), a suspicious activity
halves the client's per-minute ceiling with a floor of 5 (not 1):
the limiter used by subsequent admission checks carries
`max 5 (oldMax / 2)` as its per-minute ceiling. -/
theorem suspicion_halving (l : Limiter) (a : Activity)
    (ha : isSuspiciousActivity a = true) (hc : 3 < l.suspiciousActivityCount + 1) :
    (detectSuspiciousActivity l a).1.perMinute.max = max 5 (l.perMinute.max / 2) ∧
    (detectSuspiciousActivity l a).2 = true := by
  simp [detectSuspiciousActivity, ha, hc, triggerProtectiveMeasures]

theorem suspicion_halving_witness :
    isSuspiciousActivity failingActivity = true ∧
    3 < suspectLimiter.suspiciousActivityCount + 1 ∧
    ((detectSuspiciousActivity suspectLimiter failingActivity).1.perMinute.max =
      max 5 (suspectLimiter.perMinute.max / 2) ∧
    (detectSuspiciousActivity suspectLimiter failingActivity).2 = true) :=
  ⟨by norm_num [isSuspiciousActivity, failingActivity],
   by norm_num [suspectLimiter],
   suspicion_halving suspectLimiter failingActivity
     (by norm_num [isSuspiciousActivity, failingActivity])
     (by norm_num [suspectLimiter])⟩

/-- C7 counterexample: the claim says the gate exposes the delay value to
the caller rather than sleeping internally; `simulateHumanBehavior`
returns the same value (`true`) for random draws that produce different
internal sleeps, and the sleep it performs internally is nonzero — the
delay is consumed inside the call, not exposed. -/
theorem human_delay_not_exposed_cex :
    (simulateHumanBehavior "message" (1 / 2) 0).returned =
      (simulateHumanBehavior "message" (1 / 2) (1 / 2)).returned ∧
    (simulateHumanBehavior "message" (1 / 2) 0).sleptMs ≠
      (simulateHumanBehavior "message" (1 / 2) (1 / 2)).sleptMs ∧
    (simulateHumanBehavior "message" (1 / 2) 0).sleptMs ≠ 0 := by
  rw [simulateHumanBehavior_message, simulateHumanBehavior_message]
  norm_num [randomDelay]

/-- C7 (amended): for an admitted message the human-like delay is drawn
as the claim describes — a base value uniform on [2000 ms, 5000 ms),
replaced with probability 0.10 by a longer pause uniform on
[5000 ms, 15000 ms) — but `simulateHumanBehavior` sleeps for that
duration internally and returns only `true`; no delay value is exposed
in any admission result. -/
theorem human_delay_distribution (p r : ℚ) (hr0 : 0 ≤ r) (hr1 : r < 1) :
    (simulateHumanBehavior "message" p r).returned = true ∧
    (p < 1 / 10 → 5000 ≤ (simulateHumanBehavior "message" p r).sleptMs ∧
      (simulateHumanBehavior "message" p r).sleptMs < 15000) ∧
    (¬ p < 1 / 10 → 2000 ≤ (simulateHumanBehavior "message" p r).sleptMs ∧
      (simulateHumanBehavior "message" p r).sleptMs < 5000) := by
  rw [simulateHumanBehavior_message]
  refine ⟨rfl, fun hp => ?_, fun hp => ?_⟩
  · simp only [if_pos hp, randomDelay]
    constructor <;> nlinarith
  · simp only [if_neg hp, randomDelay]
    constructor <;> nlinarith

theorem human_delay_distribution_witness :
    (0 : ℚ) ≤ 0 ∧ (0 : ℚ) < 1 ∧
    ((simulateHumanBehavior "message" 0 0).returned = true ∧
      ((0 : ℚ) < 1 / 10 → 5000 ≤ (simulateHumanBehavior "message" 0 0).sleptMs ∧
        (simulateHumanBehavior "message" 0 0).sleptMs < 15000) ∧
      (¬ (0 : ℚ) < 1 / 10 → 2000 ≤ (simulateHumanBehavior "message" 0 0).sleptMs ∧
        (simulateHumanBehavior "message" 0 0).sleptMs < 5000)) :=
  ⟨le_refl 0, by norm_num, human_delay_distribution 0 0 (le_refl 0) (by norm_num)⟩

/-! ## Delivery pipeline lemmas -/

theorem processFrom_success (outcomes : ℕ → HttpOutcome) (retries remaining s : ℕ)
    (h : outcomes retries = .response s) (hs : isSuccessStatus s = true) :
    processFrom outcomes retries remaining = ⟨[⟨s, retries⟩], [], 1⟩ := by
  cases remaining <;> simp [processFrom, h, hs]

theorem processFrom_allFail (outcomes : ℕ → HttpOutcome)
    (h : ∀ i, (outcomes i).isSuccess = false) (remaining : ℕ) :
    ∀ retries,
      (processFrom outcomes retries remaining).attempts = remaining + 1 ∧
      ∃ pre, (processFrom outcomes retries remaining).logs =
        pre ++ [⟨500, retries + remaining⟩] := by
  induction remaining with
  | zero =>
    intro retries
    cases ho : outcomes retries with
    | response s =>
      have hs : isSuccessStatus s = false := by
        simpa [ho, HttpOutcome.isSuccess] using h retries
      exact ⟨by simp [processFrom, ho, hs], ⟨[⟨s, retries⟩], by simp [processFrom, ho, hs]⟩⟩
    | networkError =>
      exact ⟨by simp [processFrom, ho], ⟨[], by simp [processFrom, ho]⟩⟩
  | succ r ih =>
    intro retries
    obtain ⟨iha, pre, ihl⟩ := ih (retries + 1)
    have hidx : retries + 1 + r = retries + (r + 1) := by omega
    rw [hidx] at ihl
    cases ho : outcomes retries with
    | response s =>
      have hs : isSuccessStatus s = false := by
        simpa [ho, HttpOutcome.isSuccess] using h retries
      exact ⟨by simp [processFrom, ho, hs, iha],
        ⟨⟨s, retries⟩ :: pre, by simp [processFrom, ho, hs, ihl]⟩⟩
    | networkError =>
      exact ⟨by simp [processFrom, ho, iha], ⟨pre, by simp [processFrom, ho, ihl]⟩⟩

theorem processFrom_failResp_length (outcomes : ℕ → HttpOutcome)
    (h : ∀ i, (outcomes i).isFailResponse = true) (remaining : ℕ) :
    ∀ retries, (processFrom outcomes retries remaining).logs.length = remaining + 2 := by
  induction remaining with
  | zero =>
    intro retries
    cases ho : outcomes retries with
    | response s =>
      have hs : isSuccessStatus s = false := by
        simpa [ho, HttpOutcome.isFailResponse] using h retries
      simp [processFrom, ho, hs]
    | networkError =>
      have hcontra := h retries
      rw [ho] at hcontra
      simp [HttpOutcome.isFailResponse] at hcontra
  | succ r ih =>
    intro retries
    cases ho : outcomes retries with
    | response s =>
      have hs : isSuccessStatus s = false := by
        simpa [ho, HttpOutcome.isFailResponse] using h retries
      simp [processFrom, ho, hs, ih (retries + 1)]
    | networkError =>
      have hcontra := h retries
      rw [ho] at hcontra
      simp [HttpOutcome.isFailResponse] at hcontra

theorem processFrom_network_length (outcomes : ℕ → HttpOutcome)
    (h : ∀ i, outcomes i = HttpOutcome.networkError) (remaining : ℕ) :
    ∀ retries, (processFrom outcomes retries remaining).logs.length = 1 := by
  induction remaining with
  | zero => intro retries; simp [processFrom, h retries]
  | succ r ih => intro retries; simp [processFrom, h retries, ih (retries + 1)]

theorem processFrom_delays (outcomes : ℕ → HttpOutcome) (remaining : ℕ) :
    ∀ retries i, i < (processFrom outcomes retries remaining).delaysMs.length →
      (processFrom outcomes retries remaining).delaysMs.getD i 0 =
        2 ^ (retries + 1 + i) * 1000 := by
  induction remaining with
  | zero =>
    intro retries i hi
    exfalso
    cases ho : outcomes retries with
    | response s => cases hs : isSuccessStatus s <;> simp [processFrom, ho, hs] at hi
    | networkError => simp [processFrom, ho] at hi
  | succ r ih =>
    intro retries i hi
    cases ho : outcomes retries with
    | response s =>
      cases hs : isSuccessStatus s with
      | true => simp [processFrom, ho, hs] at hi
      | false =>
        simp only [processFrom, ho, hs] at hi ⊢
        simp only [Bool.false_eq_true, if_false] at hi ⊢
        cases i with
        | zero => simp
        | succ j =>
          simp only [List.length_cons, Nat.add_lt_add_iff_right] at hi
          simp only [List.getD_cons_succ]
          rw [ih (retries + 1) j hi]
          have he : retries + 1 + 1 + j = retries + 1 + (j + 1) := by omega
          rw [he]
    | networkError =>
      simp only [processFrom, ho] at hi ⊢
      cases i with
      | zero => simp
      | succ j =>
        simp only [List.length_cons, Nat.add_lt_add_iff_right] at hi
        simp only [List.getD_cons_succ]
        rw [ih (retries + 1) j hi]
        have he : retries + 1 + 1 + j = retries + 1 + (j + 1) := by omega
        rw [he]

/-- C3: in every delivery, the backoff delay scheduled before the
(0-based) n-th retry is `2^(n+1) * 1000` ms, i.e. `2^(n+1)` seconds
(2 s, 4 s, 8 s, ...), and consecutive scheduled delays strictly
increase. -/
theorem backoff_delay_formula (outcomes : ℕ → HttpOutcome) (maxRetries i : ℕ)
    (hi : i < (processDelivery outcomes maxRetries).delaysMs.length) :
    (processDelivery outcomes maxRetries).delaysMs.getD i 0 = 2 ^ (i + 1) * 1000 ∧
    (i + 1 < (processDelivery outcomes maxRetries).delaysMs.length →
      (processDelivery outcomes maxRetries).delaysMs.getD i 0 <
        (processDelivery outcomes maxRetries).delaysMs.getD (i + 1) 0) := by
  have h1 : (processDelivery outcomes maxRetries).delaysMs.getD i 0 =
      2 ^ (0 + 1 + i) * 1000 := processFrom_delays outcomes maxRetries 0 i hi
  have he : 0 + 1 + i = i + 1 := by omega
  rw [he] at h1
  refine ⟨h1, fun h2 => ?_⟩
  have h3 : (processDelivery outcomes maxRetries).delaysMs.getD (i + 1) 0 =
      2 ^ (0 + 1 + (i + 1)) * 1000 := processFrom_delays outcomes maxRetries 0 (i + 1) h2
  have he2 : 0 + 1 + (i + 1) = i + 2 := by omega
  rw [he2] at h3
  rw [h1, h3]
  have hp : (2 : ℕ) ^ (i + 1) < 2 ^ (i + 2) :=
    Nat.pow_lt_pow_right (by norm_num) (by omega)
  omega

theorem backoff_delay_formula_witness :
    (0 : ℕ) < (processDelivery always503 3).delaysMs.length ∧
    ((processDelivery always503 3).delaysMs.getD 0 0 = 2 ^ (0 + 1) * 1000 ∧
      (0 + 1 < (processDelivery always503 3).delaysMs.length →
        (processDelivery always503 3).delaysMs.getD 0 0 <
          (processDelivery always503 3).delaysMs.getD (0 + 1) 0)) :=
  ⟨by decide, backoff_delay_formula always503 3 0 (by decide)⟩

/-- C2 counterexample: with `maxRetries = 3` and a subscriber that always
returns HTTP 503, the engine makes 4 HTTP attempts (the initial try plus
3 retries), contradicting the claim's ceiling of at most 3 total
attempts: the source retries while `retries < maxRetries`, not while
`retries < maxRetries - 1`. -/
theorem retry_attempt_ceiling_cex :
    (processDelivery always503 3).attempts = 4 ∧
    ¬ (processDelivery always503 3).attempts ≤ 3 := by
  decide

/-- C2 (amended): on an attempt whose HTTP post fails, the engine retries
while `attempt < maxAttempts` (not `maxAttempts - 1`); an always-failing
delivery therefore makes `maxRetries + 1` total HTTP attempts (4 with the
default `maxRetries = 3`), after which the final log entry records the
sentinel status 500 with `retryCount = maxRetries` and no further
attempts are scheduled. -/
theorem retry_exhaustion (outcomes : ℕ → HttpOutcome) (maxRetries : ℕ)
    (h : ∀ i, (outcomes i).isSuccess = false) :
    (processDelivery outcomes maxRetries).attempts = maxRetries + 1 ∧
    (processDelivery outcomes maxRetries).logs.getLast? =
      some ⟨500, maxRetries⟩ := by
  obtain ⟨ha, pre, hl⟩ := processFrom_allFail outcomes h maxRetries 0
  rw [Nat.zero_add] at hl
  refine ⟨ha, ?_⟩
  show (processFrom outcomes 0 maxRetries).logs.getLast? = some ⟨500, maxRetries⟩
  rw [hl]
  exact List.getLast?_concat _

theorem retry_exhaustion_witness :
    (∀ i, (always503 i).isSuccess = false) ∧
    ((processDelivery always503 3).attempts = 3 + 1 ∧
      (processDelivery always503 3).logs.getLast? = some ⟨500, 3⟩) :=
  ⟨fun _ => rfl, retry_exhaustion always503 3 fun _ => rfl⟩

/-- C1 counterexample: with a subscriber that always returns HTTP 503 and
`maxRetries = 3`, the engine writes 5 Delivery Log Entries recording a
failed (non-2xx) outcome for the single (subscription, triggered-event)
pair — one per responded attempt plus the exhausted-retries row — not
exactly one terminal entry as the claim states. -/
theorem terminal_log_unique_cex :
    ((processDelivery always503 3).logs.filter
      fun e => !isSuccessStatus e.statusCode).length = 5 := by
  decide

/-- C1 (amended): per (subscription, triggered-event) pair the engine
writes one Delivery Log Entry for every HTTP attempt that received a
response, plus exactly one exhausted-retries entry when every attempt
failed; so a delivery that succeeds on its first attempt produces
exactly one entry, a delivery all of whose attempts fail at network
level produces exactly one (the exhaustion entry), but a delivery whose
attempts all receive failing HTTP responses produces `maxRetries + 2`
entries — terminal-outcome logging is not unique in general. -/
theorem delivery_log_entry_counts (outcomes : ℕ → HttpOutcome) (maxRetries : ℕ) :
    ((outcomes 0).isSuccess = true →
      (processDelivery outcomes maxRetries).logs.length = 1) ∧
    ((∀ i, (outcomes i).isFailResponse = true) →
      (processDelivery outcomes maxRetries).logs.length = maxRetries + 2) ∧
    ((∀ i, outcomes i = HttpOutcome.networkError) →
      (processDelivery outcomes maxRetries).logs.length = 1) := by
  refine ⟨fun hsucc => ?_, fun hfail => ?_, fun hnet => ?_⟩
  · cases ho : outcomes 0 with
    | response s =>
      have hs : isSuccessStatus s = true := by
        simpa [ho, HttpOutcome.isSuccess] using hsucc
      rw [processDelivery, processFrom_success outcomes 0 maxRetries s ho hs]
      rfl
    | networkError =>
      rw [ho] at hsucc
      simp [HttpOutcome.isSuccess] at hsucc
  · exact processFrom_failResp_length outcomes hfail maxRetries 0
  · exact processFrom_network_length outcomes hnet maxRetries 0

theorem resetWindow_max (w : RateWindow) (d now : ℤ) :
    (resetWindow w d now).max = w.max := by
  unfold resetWindow
  split <;> rfl

theorem canSendMessage_fst (l : Limiter) (now : ℤ) :
    (canSendMessage l now).1 =
      ⟨resetWindow l.perMinute 60000 now, resetWindow l.perHour 3600000 now,
        resetWindow l.perDay 86400000 now, l.suspiciousActivityCount,
        l.adaptiveThreshold⟩ := by
  simp only [canSendMessage]
  split_ifs <;> rfl

theorem canSendMessage_allowed_lt (l : Limiter) (now : ℤ)
    (hallow : (canSendMessage l now).2.allowed = true) :
    ((canSendMessage l now).1.perMinute.current : ℚ) <
      (canSendMessage l now).1.perMinute.max ∧
    ((canSendMessage l now).1.perHour.current : ℚ) <
      (canSendMessage l now).1.perHour.max ∧
    ((canSendMessage l now).1.perDay.current : ℚ) <
      (canSendMessage l now).1.perDay.max := by
  rw [canSendMessage_fst]
  simp only [canSendMessage] at hallow
  split_ifs at hallow with h1 h2 h3 <;>
    (push_neg at h1 h2 h3; exact ⟨h1, h2, h3⟩)

/-- C5: whenever `canSendMessage` returns `allowed` (for a limiter whose
ceilings are whole numbers, as for every limiter the manager creates),
every refreshed window's count is strictly below its ceiling — the check
never allows while a (current) window count is at or above the ceiling —
and after `recordMessageSend` records the send, every window satisfies
`count <= max`. -/
theorem rate_count_le_ceiling (l : Limiter) (now : ℤ)
    (hm : ∃ n : ℕ, l.perMinute.max = n) (hh : ∃ n : ℕ, l.perHour.max = n)
    (hd : ∃ n : ℕ, l.perDay.max = n)
    (hallow : (canSendMessage l now).2.allowed = true) :
    (((canSendMessage l now).1.perMinute.current : ℚ) <
        (canSendMessage l now).1.perMinute.max ∧
      ((canSendMessage l now).1.perHour.current : ℚ) <
        (canSendMessage l now).1.perHour.max ∧
      ((canSendMessage l now).1.perDay.current : ℚ) <
        (canSendMessage l now).1.perDay.max) ∧
    (((recordMessageSend (canSendMessage l now).1).perMinute.current : ℚ) ≤
        (recordMessageSend (canSendMessage l now).1).perMinute.max ∧
      ((recordMessageSend (canSendMessage l now).1).perHour.current : ℚ) ≤
        (recordMessageSend (canSendMessage l now).1).perHour.max ∧
      ((recordMessageSend (canSendMessage l now).1).perDay.current : ℚ) ≤
        (recordMessageSend (canSendMessage l now).1).perDay.max) := by
  obtain ⟨hlt1, hlt2, hlt3⟩ := canSendMessage_allowed_lt l now hallow
  refine ⟨⟨hlt1, hlt2, hlt3⟩, ?_, ?_, ?_⟩ <;>
    simp only [recordMessageSend] <;> rw [canSendMessage_fst] at *
  · obtain ⟨n, hn⟩ := hm
    rw [resetWindow_max] at *
    rw [hn] at hlt1 ⊢
    have : (resetWindow l.perMinute 60000 now).current < n := by exact_mod_cast hlt1
    push_cast
    exact_mod_cast Nat.succ_le_of_lt this
  · obtain ⟨n, hn⟩ := hh
    rw [resetWindow_max] at *
    rw [hn] at hlt2 ⊢
    have : (resetWindow l.perHour 3600000 now).current < n := by exact_mod_cast hlt2
    push_cast
    exact_mod_cast Nat.succ_le_of_lt this
  · obtain ⟨n, hn⟩ := hd
    rw [resetWindow_max] at *
    rw [hn] at hlt3 ⊢
    have : (resetWindow l.perDay 86400000 now).current < n := by exact_mod_cast hlt3
    push_cast
    exact_mod_cast Nat.succ_le_of_lt this

theorem rate_count_le_ceiling_witness :
    (∃ n : ℕ, (initializeRateLimiter 0).perMinute.max = n) ∧
    (∃ n : ℕ, (initializeRateLimiter 0).perHour.max = n) ∧
    (∃ n : ℕ, (initializeRateLimiter 0).perDay.max = n) ∧
    (canSendMessage (initializeRateLimiter 0) 0).2.allowed = true ∧
    ((recordMessageSend (canSendMessage (initializeRateLimiter 0) 0).1).perMinute.current : ℚ) ≤
      (recordMessageSend (canSendMessage (initializeRateLimiter 0) 0).1).perMinute.max := by
  have hm : ∃ n : ℕ, (initializeRateLimiter 0).perMinute.max = n :=
    ⟨20, by norm_num [initializeRateLimiter]⟩
  have hh : ∃ n : ℕ, (initializeRateLimiter 0).perHour.max = n :=
    ⟨100, by norm_num [initializeRateLimiter]⟩
  have hd : ∃ n : ℕ, (initializeRateLimiter 0).perDay.max = n :=
    ⟨1000, by norm_num [initializeRateLimiter]⟩
  have hallow : (canSendMessage (initializeRateLimiter 0) 0).2.allowed = true := by
    norm_num [canSendMessage, initializeRateLimiter, resetWindow]
  exact ⟨hm, hh, hd, hallow,
    (rate_count_le_ceiling (initializeRateLimiter 0) 0 hm hh hd hallow).2.1⟩

theorem delivery_log_entry_counts_witness :
    ((∀ i, (always503 i).isFailResponse = true) ∧
      (processDelivery always503 3).logs.length = 3 + 2) ∧
    ((always200 0).isSuccess = true ∧
      (processDelivery always200 3).logs.length = 1) :=
  ⟨⟨fun _ => rfl, (delivery_log_entry_counts always503 3).2.1 fun _ => rfl⟩,
   ⟨rfl, (delivery_log_entry_counts always200 3).1 rfl⟩⟩

end WhatsappService
